import Mathlib

/-!
Verification of the account-management layer of django-organizations
(`src/accounts/views.py`, `src/organizations/admin.py`).

The views in `src/accounts/views.py` are embedded as pure Lean functions
over an explicit `Store` (the data store) and `RequestState` (session and
message state).  The repository's `accounts.mixins`, `accounts.models`,
`accounts.forms` and URL configuration are not under `src/`; where a
definition depends on them it is modelled from the spec and says so in its
doc comment.  Framework behaviour (Django class-based-view dispatch, the
`ListView` `allow_empty` default, `django.contrib.auth.logout`) is embedded
according to the framework's documented semantics.
-/

namespace Accounts

/-- Membership roles of an `AccountUser` (spec section 3: member | admin | owner). -/
inductive Role where
  | member
  | admin
  | owner
deriving DecidableEq, Repr

/-- An `Account` row: tenant with id and name (spec section 3). -/
structure Account where
  id : Nat
  name : String
deriving DecidableEq, Repr

/-- An `AccountUser` row: membership linking user to account with a role. -/
structure AccountUser where
  account : Nat
  user : Nat
  role : Role
deriving DecidableEq, Repr

/-- A `User` row: identity record, target of the profile view. -/
structure UserRec where
  id : Nat
  username : String
  email : String
deriving DecidableEq, Repr

/-- The data store: the three tables the views read and write. -/
structure Store where
  accounts : List Account
  accountUsers : List AccountUser
  users : List UserRec
deriving DecidableEq, Repr

/-- Request-scoped state: the session (`some uid` when a user is logged in,
`none` when logged out) and the framework messages queue appended to the
next-rendered page. -/
structure RequestState where
  session : Option Nat
  messages : List String
deriving DecidableEq, Repr

/-- The possible request outcomes of the embedded views. -/
inductive Response where
  | renderedLogin (redirectUrl : String)
  | renderedAccounts (accounts : List Account)
  | renderedAccountDetail (account : Account) (accountUsers : List AccountUser)
  | renderedAccountUsers (account : Account) (accountUsers : List AccountUser)
  | renderedForm
  | redirect (url : String)
  | forbidden
  | notFound
  | methodNotAllowed
  | serverError
deriving DecidableEq, Repr

/-- Modelled from the spec: the URL configuration is not under `src/`;
`reverse` maps the route names used in `views.py` to the paths of spec
section 6. -/
def reverse (name : String) : String :=
  match name with
  | "login" => "/login"
  | "account_list" => "/accounts"
  | "accountuser_list" => "/accounts/users"
  | "user_profile" => "/profile"
  | _ => "/"

/-- Modelled from the spec: `Account.get_absolute_url` (the `accounts.models`
module is not under `src/`) is the account's detail page `/accounts/{account}`
per spec section 6. -/
def accountDetailUrl (acct : Nat) : String :=
  "/accounts/" ++ toString acct

/-- Modelled from the spec: `AccountUser.get_absolute_url` is the membership
detail page `/accounts/{account}/users/{user}` per spec section 6. -/
def accountUserDetailUrl (acct u : Nat) : String :=
  "/accounts/" ++ toString acct ++ "/users/" ++ toString u

/-- Modelled from the spec: `AccountMixin` resource resolution (the
`accounts.mixins` module is not under `src/`): load the Account named by the
route parameter, or fail with not-found. -/
def getAccount (st : Store) (acct : Nat) : Option Account :=
  st.accounts.find? (fun a => a.id == acct)

/-- Modelled from the spec: `AccountUserMixin` resource resolution: load the
AccountUser scoped to an Account from the two route parameters, or fail with
not-found. -/
def getAccountUser (st : Store) (acct u : Nat) : Option AccountUser :=
  st.accountUsers.find? (fun au => au.account == acct && au.user == u)

/-- The membership rows of one Account (`self.account.account_users.all()`). -/
def accountUsersOf (st : Store) (acct : Nat) : List AccountUser :=
  st.accountUsers.filter (fun au => au.account == acct)

/-- The caller's membership role on an Account, if any ((account, user) pairs
are unique per the spec's invariant; the first matching row is taken). -/
def roleOf (st : Store) (caller acct : Nat) : Option Role :=
  (st.accountUsers.find? (fun au => au.user == caller && au.account == acct)).map
    (fun au => au.role)

/-- Modelled from the spec: `MembershipRequiredMixin` (not under `src/`) —
the caller must be some AccountUser of the target Account, any role. -/
def isMember (st : Store) (caller acct : Nat) : Bool :=
  (roleOf st caller acct).isSome

/-- Modelled from the spec: `AdminRequiredMixin` (not under `src/`) — the
caller's role for the target Account must be admin or owner. -/
def isAdminOrOwner (st : Store) (caller acct : Nat) : Bool :=
  match roleOf st caller acct with
  | some Role.admin => true
  | some Role.owner => true
  | _ => false

/-- Modelled from the spec: `OwnerRequiredMixin` (not under `src/`) — the
caller's role must be owner. -/
def isOwner (st : Store) (caller acct : Nat) : Bool :=
  match roleOf st caller acct with
  | some Role.owner => true
  | _ => false

namespace LoginView

/-- `LoginView.get` (views.py lines 26-32): `redirect_url` is the request's
`next` query parameter, defaulting to `settings.LOGIN_REDIRECT_URL`; an
already-authenticated caller is redirected there at once, otherwise the login
form is rendered with that initial redirect value.  The session state is the
authority for `request.user.is_authenticated()`. -/
def get (loginRedirectUrl : String) (nextParam : Option String)
    (s : RequestState) : RequestState × Response :=
  let redirect_url := nextParam.getD loginRedirectUrl
  if s.session.isSome then
    (s, Response.redirect redirect_url)
  else
    (s, Response.renderedLogin redirect_url)

end LoginView

namespace LogoutView

/-- `LogoutView.get` (views.py lines 46-49): `logout(request)` flushes the
session (framework semantics of `django.contrib.auth.logout`), an INFO message
is appended, and the response redirects to `reverse('login')`. -/
def get (s : RequestState) : RequestState × Response :=
  let s1 : RequestState := { s with session := none }
  let s2 : RequestState :=
    { s1 with messages := s1.messages ++ ["You have successfully logged out."] }
  (s2, Response.redirect (reverse "login"))

/-- `LogoutView.post` (views.py lines 51-52): delegates to `get`. -/
def post (s : RequestState) : RequestState × Response :=
  get s

end LogoutView

namespace AccountList

/-- `AccountList = BaseAccountList` (views.py lines 55-57, 136-137): a
`ListView` over the `Account` model with no access-policy mixin; per framework
`ListView` semantics it renders all rows of the model.  The caller argument
(`none` for anonymous) is ignored by the view: no gate consults it. -/
def get (st : Store) (_caller : Option Nat) : Response :=
  Response.renderedAccounts st.accounts

end AccountList

namespace AccountDetail

/-- `AccountDetail = MembershipRequiredMixin + BaseAccountDetail`
(views.py lines 60-65, 144-145): resolve the Account from the route (404 on
failure), gate on membership, then render the Account together with its full
membership list (`context['account_users'] = self.account.account_users.all()`).
Resolution precedes authorization per spec section 4.2. -/
def get (st : Store) (caller acct : Nat) : Response :=
  match getAccount st acct with
  | none => Response.notFound
  | some a =>
    if isMember st caller acct then
      Response.renderedAccountDetail a (accountUsersOf st acct)
    else
      Response.forbidden

end AccountDetail

/-- An HTTP method, as consulted by Django's `View.dispatch`. -/
inductive Method where
  | get
  | post
deriving DecidableEq, Repr

/-- The handlers a class-based view defines: Django's `View.dispatch` looks
the lowercased request method up as an attribute and falls back to
`http_method_not_allowed` (HTTP 405) when the class defines no such handler. -/
structure ViewHandlers (σ : Type) where
  onGet : Option (σ → σ × Response)
  onPost : Option (σ → σ × Response)

/-- Django `View.dispatch` semantics over the declared handlers. -/
def dispatch {σ : Type} (h : ViewHandlers σ) (m : Method) (st : σ) :
    σ × Response :=
  match m with
  | Method.get =>
    match h.onGet with
    | some f => f st
    | none => (st, Response.methodNotAllowed)
  | Method.post =>
    match h.onPost with
    | some f => f st
    | none => (st, Response.methodNotAllowed)

/-- The data an `AccountAddForm` submission carries (modelled from the spec:
`accounts.forms` is not under `src/`): a name for the new Account. -/
structure AccountAddFormData where
  name : String
deriving DecidableEq, Repr

namespace BaseAccountCreate

/-- `BaseAccountCreate.get_success_url` (views.py lines 72-73): the created
object's absolute URL, i.e. the Account detail page. -/
def get_success_url (acct : Nat) : String :=
  accountDetailUrl acct

/-- Modelled from the spec: `AccountAddForm.save` (the form is not under
`src/`) creates the Account and its implicit owner AccountUser for the caller
(spec section 4.3: "produces a new Account and its implicit owner
AccountUser"). -/
def formSave (st : Store) (caller newId : Nat) (form : AccountAddFormData) :
    Store × Nat :=
  ({ st with
      accounts := st.accounts ++ [{ id := newId, name := form.name }],
      accountUsers :=
        st.accountUsers ++ [{ account := newId, user := caller, role := Role.owner }] },
   newId)

/-- `BaseAccountCreate.form_valid` (views.py lines 75-77): saves the form and
redirects to the success URL.  This hook belongs to the `CreateView` machinery;
`BaseAccountCreate` subclasses plain `View`, which never invokes it. -/
def form_valid (st : Store) (caller newId : Nat) (form : AccountAddFormData) :
    Store × Response :=
  let (st1, objId) := formSave st caller newId form
  (st1, Response.redirect (get_success_url objId))

/-- The handlers `BaseAccountCreate` actually declares (views.py lines 68-77):
it subclasses `View` and defines neither `get` nor `post`, only the unused
`CreateView` hooks `form_class`, `get_success_url` and `form_valid`, so
`dispatch` finds no handler for any request method. -/
def handlers : ViewHandlers Store :=
  { onGet := none, onPost := none }

end BaseAccountCreate

namespace AccountCreate

/-- `AccountCreate = BaseAccountCreate` (views.py lines 140-141): every
request goes through Django `View.dispatch` over the declared handlers. -/
def run (m : Method) (st : Store) : Store × Response :=
  dispatch BaseAccountCreate.handlers m st

end AccountCreate

namespace AccountUpdate

/-- `AccountUpdate = AdminRequiredMixin + BaseAccountUpdate`
(views.py lines 80-81, 148-149): resolve the Account, gate on admin-or-owner,
then the `UpdateView` body saves the `AccountForm` (modelled from the spec:
the form, not under `src/`, edits the Account's fields) and redirects to the
object's absolute URL. -/
def post (st : Store) (caller acct : Nat) (newName : String) :
    Store × Response :=
  match getAccount st acct with
  | none => (st, Response.notFound)
  | some _ =>
    if isAdminOrOwner st caller acct then
      ({ st with
          accounts := st.accounts.map
            (fun a => if a.id == acct then { a with name := newName } else a) },
       Response.redirect (accountDetailUrl acct))
    else
      (st, Response.forbidden)

end AccountUpdate

namespace AccountDelete

/-- `AccountDelete = OwnerRequiredMixin + BaseAccountDelete`
(views.py lines 84-86, 152-153): resolve the Account, gate on owner, then the
`DeleteView` body deletes the object (its membership rows cascade per the
framework's foreign-key semantics) and redirects to
`get_success_url() = reverse("account_list")`. -/
def post (st : Store) (caller acct : Nat) : Store × Response :=
  match getAccount st acct with
  | none => (st, Response.notFound)
  | some _ =>
    if isOwner st caller acct then
      ({ st with
          accounts := st.accounts.filter (fun a => a.id != acct),
          accountUsers := st.accountUsers.filter (fun au => au.account != acct) },
       Response.redirect (reverse "account_list"))
    else
      (st, Response.forbidden)

end AccountDelete

/-- Django `MultipleObjectMixin` default: `allow_empty = True`.
`BaseAccountUserList` sets no `allow_empty` attribute, so
`self.get_allow_empty()` returns this default. -/
def defaultAllowEmpty : Bool := true

namespace AccountUserList

/-- `AccountUserList = MembershipRequiredMixin + BaseAccountUserList`
(views.py lines 89-99, 156-157): resolve the Account, gate on membership, then
the body sets `object_list` to the Account's membership rows and, when
`allow_empty` is false and the list is empty, reaches
`raise Http404(_(u"Empty list ..."))` — but `_` is not imported in views.py,
so that line raises `NameError` (an unhandled server error, not a 404);
otherwise it renders the list. -/
def get (st : Store) (caller acct : Nat) (allowEmpty : Bool) : Response :=
  match getAccount st acct with
  | none => Response.notFound
  | some a =>
    if isMember st caller acct then
      let objectList := accountUsersOf st acct
      if !allowEmpty && objectList.length == 0 then
        Response.serverError
      else
        Response.renderedAccountUsers a objectList
    else
      Response.forbidden

end AccountUserList

/-- The data an `AccountUserAddForm` submission carries: the user to add, the
role, and any account id the client smuggles into the posted body.  Modelled
from the spec: `accounts.forms` is not under `src/`; per views.py lines
113-116 the form receives `account = self.account` (resolved from the route)
in its kwargs, and per spec section 4.4 it binds the new membership to that
Account, never to form input — the `accountField` component is ignored. -/
structure AccountUserAddFormData where
  user : Nat
  role : Role
  accountField : Option Nat
deriving DecidableEq, Repr

namespace AccountUserCreate

/-- `AccountUserCreate = AdminRequiredMixin + BaseAccountUserCreate`
(views.py lines 106-124, 168-169): `post` sets `self.account =
self.get_object()` (the Account resolved from the route, 404 on failure),
the gate requires admin-or-owner, and the `CreateView` machinery saves the
form — whose kwargs carry the route-resolved Account — and redirects to the
new membership's absolute URL. -/
def post (st : Store) (caller acct : Nat) (form : AccountUserAddFormData) :
    Store × Response :=
  match getAccount st acct with
  | none => (st, Response.notFound)
  | some _ =>
    if isAdminOrOwner st caller acct then
      ({ st with
          accountUsers :=
            st.accountUsers ++
              [{ account := acct, user := form.user, role := form.role }] },
       Response.redirect (accountUserDetailUrl acct form.user))
    else
      (st, Response.forbidden)

end AccountUserCreate

namespace AccountUserDetail

/-- `AccountUserDetail = AdminRequiredMixin + BaseAccountUserDetail`
(views.py lines 102-103, 160-161): resolve the AccountUser from the two route
parameters, gate on admin-or-owner, render it. -/
def get (st : Store) (caller acct u : Nat) : Response :=
  match getAccountUser st acct u with
  | none => Response.notFound
  | some _ =>
    if isAdminOrOwner st caller acct then
      Response.renderedForm
    else
      Response.forbidden

end AccountUserDetail

namespace AccountUserUpdate

/-- `AccountUserUpdate = AdminRequiredMixin + BaseAccountUserUpdate`
(views.py lines 127-128, 164-165): resolve the AccountUser, gate on
admin-or-owner, then the `UpdateView` body saves the `AccountUserForm`
(modelled from the spec: the form, not under `src/`, edits the membership's
role) and redirects to the object's absolute URL. -/
def post (st : Store) (caller acct u : Nat) (newRole : Role) :
    Store × Response :=
  match getAccountUser st acct u with
  | none => (st, Response.notFound)
  | some _ =>
    if isAdminOrOwner st caller acct then
      ({ st with
          accountUsers := st.accountUsers.map
            (fun au =>
              if au.account == acct && au.user == u then
                { au with role := newRole }
              else au) },
       Response.redirect (accountUserDetailUrl acct u))
    else
      (st, Response.forbidden)

end AccountUserUpdate

namespace AccountUserDelete

/-- `AccountUserDelete = AdminRequiredMixin + BaseAccountUserDelete`
(views.py lines 131-133, 172-173): resolve the AccountUser, gate on
admin-or-owner, then the `DeleteView` body deletes the membership row and
redirects to `get_success_url() = reverse("accountuser_list")`. -/
def post (st : Store) (caller acct u : Nat) : Store × Response :=
  match getAccountUser st acct u with
  | none => (st, Response.notFound)
  | some _ =>
    if isAdminOrOwner st caller acct then
      ({ st with
          accountUsers := st.accountUsers.filter
            (fun au => !(au.account == acct && au.user == u)) },
       Response.redirect (reverse "accountuser_list"))
    else
      (st, Response.forbidden)

end AccountUserDelete

/-- The data a `UserProfileForm` submission carries (modelled from the spec:
`accounts.forms` is not under `src/`): the identity's editable fields. -/
structure UserProfileFormData where
  username : String
  email : String
deriving DecidableEq, Repr

/-- Apply a profile form to a user row. -/
def applyProfileForm (form : UserProfileFormData) (u : UserRec) : UserRec :=
  { u with username := form.username, email := form.email }

/-- Look a user row up by id. -/
def findUser (st : Store) (uid : Nat) : Option UserRec :=
  st.users.find? (fun u => u.id == uid)

namespace UserProfileView

/-- `UserProfileView.get_success_url` (views.py lines 180-182):
`getattr(self, 'success_url')` is the `FormMixin` default `None` unless
configured, in which case the view falls back to `reverse('user_profile')`. -/
def get_success_url (successUrl : Option String) : String :=
  successUrl.getD (reverse "user_profile")

/-- `UserProfileView` (views.py lines 176-194): an `UpdateView` whose
`get_object` returns `self.request.user` — the update always targets the
requesting identity, no route or form parameter selects the target.  The
`UpdateView` machinery saves the `UserProfileForm` onto that object and
redirects to the success URL. -/
def post (st : Store) (callerId : Nat) (form : UserProfileFormData)
    (successUrl : Option String) : Store × Response :=
  ({ st with
      users := st.users.map
        (fun u => if u.id == callerId then applyProfileForm form u else u) },
   Response.redirect (get_success_url successUrl))

end UserProfileView

/-- A concrete Account used by the concrete-input checks. -/
def wAccount : Account := { id := 10, name := "acme" }

/-- A concrete Account with zero members. -/
def wAccountEmpty : Account := { id := 30, name := "emptyco" }

/-- A concrete store: account 10 with a member (user 1), an admin (user 3)
and an owner (user 5); account 20 with an admin (user 2); account 30 with no
members at all. -/
def wStore : Store :=
  { accounts := [wAccount, { id := 20, name := "globex" }, wAccountEmpty],
    accountUsers :=
      [ { account := 10, user := 1, role := Role.member },
        { account := 10, user := 3, role := Role.admin },
        { account := 10, user := 5, role := Role.owner },
        { account := 20, user := 2, role := Role.admin } ],
    users :=
      [ { id := 1, username := "alice", email := "alice@example.com" },
        { id := 2, username := "bob", email := "bob@example.com" } ] }

lemma isMember_accountUsersOf_ne_nil (st : Store) (c acct : Nat)
    (h : isMember st c acct = true) : accountUsersOf st acct ≠ [] := by
  unfold isMember roleOf at h
  cases hfind : st.accountUsers.find?
      (fun au => au.user == c && au.account == acct) with
  | none => rw [hfind] at h; simp at h
  | some au =>
    intro hnil
    have hmem : au ∈ st.accountUsers := List.mem_of_find?_eq_some hfind
    have hpred := List.find?_some hfind
    have hacct : (au.account == acct) = true := by
      simp only [Bool.and_eq_true] at hpred
      exact hpred.2
    have : au ∈ accountUsersOf st acct := by
      unfold accountUsersOf
      exact List.mem_filter.mpr ⟨hmem, hacct⟩
    rw [hnil] at this
    simp at this

lemma accountUsersOf_nil_not_isMember (st : Store) (c acct : Nat)
    (h : accountUsersOf st acct = []) : isMember st c acct = false := by
  cases hm : isMember st c acct with
  | false => rfl
  | true => exact absurd h (isMember_accountUsersOf_ne_nil st c acct hm)

lemma roleOf_member_not_adminOrOwner (st : Store) (c acct : Nat)
    (h : roleOf st c acct = some Role.member) :
    isAdminOrOwner st c acct = false := by
  unfold isAdminOrOwner
  rw [h]

lemma find?_map_pres (g : UserRec → UserRec) (p : UserRec → Bool)
    (l : List UserRec) (hpres : ∀ u, p (g u) = p u) :
    (l.map g).find? p = (l.find? p).map g := by
  induction l with
  | nil => rfl
  | cons u l ih =>
    rw [List.map_cons, List.find?_cons, List.find?_cons, hpres]
    cases hpb : p u
    · simpa using ih
    · rfl

lemma profileMap_id (c : Nat) (f : UserProfileFormData) (u : UserRec) :
    (if u.id == c then applyProfileForm f u else u).id = u.id := by
  by_cases h : u.id = c
  · simp [applyProfileForm, h]
  · simp [h]

lemma find?_map_profile_self (l : List UserRec) (c : Nat)
    (f : UserProfileFormData) :
    (l.map (fun u => if u.id == c then applyProfileForm f u else u)).find?
        (fun u => u.id == c)
      = (l.find? (fun u => u.id == c)).map (applyProfileForm f) := by
  rw [find?_map_pres (fun u => if u.id == c then applyProfileForm f u else u)
    (fun u => u.id == c) l (fun u => by simp only [profileMap_id])]
  cases hf : l.find? (fun u => u.id == c) with
  | none => rfl
  | some u =>
    have hp : (u.id == c) = true := by simpa using List.find?_some hf
    show some (if u.id == c then applyProfileForm f u else u)
      = some (applyProfileForm f u)
    rw [if_pos hp]

lemma find?_map_profile_other (l : List UserRec) (c o : Nat)
    (f : UserProfileFormData) (h : o ≠ c) :
    (l.map (fun u => if u.id == c then applyProfileForm f u else u)).find?
        (fun u => u.id == o)
      = l.find? (fun u => u.id == o) := by
  rw [find?_map_pres (fun u => if u.id == c then applyProfileForm f u else u)
    (fun u => u.id == o) l (fun u => by simp only [profileMap_id])]
  cases hf : l.find? (fun u => u.id == o) with
  | none => rfl
  | some u =>
    have hp : (u.id == o) = true := by simpa using List.find?_some hf
    have hne : (u.id == c) = false := by
      have : u.id = o := by simpa using hp
      simp [this, h]
    show some (if u.id == c then applyProfileForm f u else u) = some u
    rw [if_neg (by simp [hne])]

lemma filter_all_ne (l : List Account) (acct : Nat) :
    (l.filter (fun a => a.id != acct)).all (fun a => a.id != acct) = true := by
  rw [List.all_eq_true]
  intro a ha
  exact (List.mem_filter.mp ha).2

/-- Claim C1: role gating of Account and AccountUser operations.  Whenever
Account `acct` resolves, a caller with no AccountUser row on `acct` receives
Forbidden from the detail view (whatever roles the store gives the caller on
other Accounts), and a caller whose role on `acct` is `member` receives
Forbidden from the Account update and from the AccountUser create, update and
delete operations scoped to `acct`. -/
theorem role_gating_forbidden
    (st : Store) (caller acct targetUser : Nat) (a : Account)
    (newName : String) (form : AccountUserAddFormData) (newRole : Role)
    (hA : getAccount st acct = some a) :
    (isMember st caller acct = false →
      AccountDetail.get st caller acct = Response.forbidden)
    ∧ (roleOf st caller acct = some Role.member →
        (AccountUpdate.post st caller acct newName).2 = Response.forbidden
        ∧ (AccountUserCreate.post st caller acct form).2 = Response.forbidden
        ∧ ((getAccountUser st acct targetUser).isSome = true →
            (AccountUserUpdate.post st caller acct targetUser newRole).2
              = Response.forbidden
            ∧ (AccountUserDelete.post st caller acct targetUser).2
              = Response.forbidden)) := by
  constructor
  · intro hmem
    unfold AccountDetail.get
    rw [hA, hmem]
    simp
  · intro hrole
    have hadm := roleOf_member_not_adminOrOwner st caller acct hrole
    refine ⟨?_, ?_, ?_⟩
    · unfold AccountUpdate.post
      rw [hA, hadm]
      simp
    · unfold AccountUserCreate.post
      rw [hA, hadm]
      simp
    · intro htarget
      cases hfind : getAccountUser st acct targetUser with
      | none => rw [hfind] at htarget; simp at htarget
      | some au =>
        constructor
        · unfold AccountUserUpdate.post
          rw [hfind, hadm]
          simp
        · unfold AccountUserDelete.post
          rw [hfind, hadm]
          simp

/-- Concrete check of `role_gating_forbidden`: in `wStore`, user 2 (admin of
account 20, no row on account 10) is forbidden the detail of account 10, and
user 1 (member of account 10) is forbidden the update of account 10 and all
AccountUser mutations scoped to it. -/
theorem role_gating_forbidden_witness :
    AccountDetail.get wStore 2 10 = Response.forbidden
    ∧ (AccountUpdate.post wStore 1 10 "newname").2 = Response.forbidden
    ∧ (AccountUserCreate.post wStore 1 10
        { user := 7, role := Role.member, accountField := some 99 }).2
        = Response.forbidden
    ∧ (AccountUserUpdate.post wStore 1 10 3 Role.owner).2 = Response.forbidden
    ∧ (AccountUserDelete.post wStore 1 10 3).2 = Response.forbidden := by
  have h2 := role_gating_forbidden wStore 2 10 3 wAccount "newname"
    { user := 7, role := Role.member, accountField := some 99 } Role.owner rfl
  have h1 := role_gating_forbidden wStore 1 10 3 wAccount "newname"
    { user := 7, role := Role.member, accountField := some 99 } Role.owner rfl
  have hm1 := (h1.2 rfl)
  exact ⟨h2.1 rfl, hm1.1, hm1.2.1, (hm1.2.2 rfl).1, (hm1.2.2 rfl).2⟩

/-- Claim C2: AccountUser creation binds the new membership to the Account
resolved from the route.  Two submissions differing only in the account id
carried by the form body produce identical results, and the store after the
request is either unchanged or extended with exactly one membership bound to
the route Account. -/
theorem accountUserCreate_binds_route_account
    (st : Store) (caller acct u : Nat) (r : Role) (b1 b2 : Option Nat) :
    AccountUserCreate.post st caller acct
        { user := u, role := r, accountField := b1 }
      = AccountUserCreate.post st caller acct
          { user := u, role := r, accountField := b2 }
    ∧ ((AccountUserCreate.post st caller acct
          { user := u, role := r, accountField := b1 }).1.accountUsers
        = st.accountUsers
      ∨ (AccountUserCreate.post st caller acct
          { user := u, role := r, accountField := b1 }).1.accountUsers
        = st.accountUsers
            ++ [{ account := acct, user := u, role := r }]) := by
  unfold AccountUserCreate.post
  cases hA : getAccount st acct with
  | none => exact ⟨rfl, Or.inl rfl⟩
  | some a =>
    cases hg : isAdminOrOwner st caller acct with
    | false => simp [hg]
    | true => simp [hg]

/-- Claim C3: only an owner completes the Account delete.  Whenever the
Account resolves, the response is the redirect to the Account list exactly
when the caller's role is owner, a non-owner gets Forbidden, and on success
every Account surviving in the store (hence in any subsequent list render)
has a different id. -/
theorem accountDelete_owner_only
    (st : Store) (caller acct : Nat) (a : Account)
    (hA : getAccount st acct = some a) :
    ((AccountDelete.post st caller acct).2
        = Response.redirect (reverse "account_list")
      ↔ isOwner st caller acct = true)
    ∧ (isOwner st caller acct = false →
        (AccountDelete.post st caller acct).2 = Response.forbidden)
    ∧ (isOwner st caller acct = true →
        ((AccountDelete.post st caller acct).1.accounts.all
            (fun x => x.id != acct)) = true
        ∧ AccountList.get (AccountDelete.post st caller acct).1 (some caller)
            = Response.renderedAccounts
                (AccountDelete.post st caller acct).1.accounts) := by
  unfold AccountDelete.post
  rw [hA]
  cases hg : isOwner st caller acct with
  | false =>
    refine ⟨?_, fun _ => rfl, fun hc => by simp at hc⟩
    simp
  | true =>
    refine ⟨by simp, fun hc => by simp at hc, fun _ => ⟨?_, rfl⟩⟩
    exact filter_all_ne st.accounts acct

/-- Concrete check of `accountDelete_owner_only`: user 5 (owner of account
10 in `wStore`) deletes it, is redirected to the Account list, and account 10
is gone from the surviving rows. -/
theorem accountDelete_owner_only_witness :
    (AccountDelete.post wStore 5 10).2
      = Response.redirect (reverse "account_list")
    ∧ ((AccountDelete.post wStore 5 10).1.accounts.all
        (fun x => x.id != 10)) = true
    ∧ AccountList.get (AccountDelete.post wStore 5 10).1 (some 5)
        = Response.renderedAccounts (AccountDelete.post wStore 5 10).1.accounts := by
  have h := accountDelete_owner_only wStore 5 10 wAccount rfl
  exact ⟨h.1.mpr rfl, (h.2.2 rfl).1, (h.2.2 rfl).2⟩

/-- Counterexample to claim C4 as stated: in `wStore`, account 30 exists and
has zero members; under the default `allow_empty` setting the membership-list
request (here by user 2) yields Forbidden at the membership gate, not the Not
Found the claim asserts. -/
theorem accountUserList_empty_not_notFound :
    AccountUserList.get wStore 2 30 defaultAllowEmpty = Response.forbidden
    ∧ AccountUserList.get wStore 2 30 defaultAllowEmpty
        ≠ Response.notFound := by
  constructor
  · rfl
  · intro h
    simp [AccountUserList.get, getAccount, wStore, wAccount, wAccountEmpty,
      isMember, roleOf] at h

/-- Claim C4 (amended): whenever the Account resolves, a caller who is a
member of it receives the full (necessarily non-empty) member list whatever
the `allow_empty` setting, and when the Account has zero members every caller
is rejected by the membership gate with Forbidden, so the empty-list branch is
never the outcome. -/
theorem accountUserList_member_gets_full_list
    (st : Store) (caller caller2 acct : Nat) (a : Account)
    (ae ae2 : Bool) (hA : getAccount st acct = some a) :
    (isMember st caller acct = true →
      AccountUserList.get st caller acct ae
        = Response.renderedAccountUsers a (accountUsersOf st acct))
    ∧ (accountUsersOf st acct = [] →
        AccountUserList.get st caller2 acct ae2 = Response.forbidden) := by
  constructor
  · intro hm
    have hne := isMember_accountUsersOf_ne_nil st caller acct hm
    unfold AccountUserList.get
    rw [hA, hm]
    have hlen : (accountUsersOf st acct).length ≠ 0 := by
      intro h0
      exact hne (List.length_eq_zero.mp h0)
    have hlenb : ((accountUsersOf st acct).length == 0) = false := by
      simp [hlen]
    simp [hlenb]
  · intro hnil
    have hm := accountUsersOf_nil_not_isMember st caller2 acct hnil
    unfold AccountUserList.get
    rw [hA, hm]
    simp

/-- Concrete check of `accountUserList_member_gets_full_list`: user 1, a
member of account 10 in `wStore`, gets the full member list; account 30 with
zero members yields Forbidden for user 2. -/
theorem accountUserList_member_gets_full_list_witness :
    AccountUserList.get wStore 1 10 defaultAllowEmpty
      = Response.renderedAccountUsers wAccount (accountUsersOf wStore 10)
    ∧ AccountUserList.get wStore 2 30 true = Response.forbidden := by
  have h10 := accountUserList_member_gets_full_list wStore 1 2 10 wAccount
    defaultAllowEmpty true rfl
  have h30 := accountUserList_member_gets_full_list wStore 1 2 30 wAccountEmpty
    defaultAllowEmpty true rfl
  exact ⟨h10.1 rfl, h30.2 rfl⟩

/-- Claim C5: logout is idempotent and unconditional.  For every request
state, GET clears the session, appends the informational notice, redirects to
the login view; POST behaves identically to GET; and a second invocation
leaves the (absent) session unchanged. -/
theorem logout_unconditional_idempotent (s : RequestState) :
    (LogoutView.get s).1.session = none
    ∧ (LogoutView.get s).1.messages
        = s.messages ++ ["You have successfully logged out."]
    ∧ (LogoutView.get s).2 = Response.redirect (reverse "login")
    ∧ LogoutView.post s = LogoutView.get s
    ∧ (LogoutView.get (LogoutView.get s).1).1.session
        = (LogoutView.get s).1.session := by
  exact ⟨rfl, rfl, rfl, rfl, rfl⟩

/-- Claim C6: an already-authenticated caller is redirected at once by the
login GET — the response is a redirect to the `next` parameter or the default,
the form is not rendered, and the request state is returned unchanged (no
re-authentication). -/
theorem login_already_authenticated_redirects
    (url : String) (nextParam : Option String) (s : RequestState)
    (h : s.session.isSome = true) :
    LoginView.get url nextParam s
      = (s, Response.redirect (nextParam.getD url)) := by
  unfold LoginView.get
  rw [h]
  simp

/-- Concrete check of `login_already_authenticated_redirects` at a logged-in
state. -/
theorem login_already_authenticated_redirects_witness :
    LoginView.get "/home" (some "/x") { session := some 1, messages := [] }
      = ({ session := some 1, messages := [] }, Response.redirect "/x") := by
  have h := login_already_authenticated_redirects "/home" (some "/x")
    { session := some 1, messages := [] } rfl
  simpa using h

/-- Claim C7: the account-create endpoint.  Every request dispatched to
`AccountCreate` is answered with Method Not Allowed and leaves the store
unchanged — `BaseAccountCreate` subclasses plain `View` and declares no
`get`/`post` handler — while the `form_valid` hook it defines (which only the
`CreateView` machinery would invoke) would indeed create the Account with its
implicit owner membership and redirect to the detail page. -/
theorem accountCreate_method_not_allowed
    (st : Store) (m : Method) (caller newId : Nat)
    (form : AccountAddFormData) :
    AccountCreate.run m st = (st, Response.methodNotAllowed)
    ∧ (BaseAccountCreate.form_valid st caller newId form).1.accounts
        = st.accounts ++ [{ id := newId, name := form.name }]
    ∧ (BaseAccountCreate.form_valid st caller newId form).1.accountUsers
        = st.accountUsers
            ++ [{ account := newId, user := caller, role := Role.owner }]
    ∧ (BaseAccountCreate.form_valid st caller newId form).2
        = Response.redirect (accountDetailUrl newId) := by
  refine ⟨?_, rfl, rfl, rfl⟩
  cases m with
  | get => rfl
  | post => rfl

/-- Claim C8: the profile update targets the requesting identity only.  For
every store and submission, the caller's row is the only one rewritten (to the
form's values) and every other user id resolves to the same row as before. -/
theorem profile_updates_only_self
    (st : Store) (caller other : Nat) (form : UserProfileFormData)
    (successUrl : Option String) (h : other ≠ caller) :
    findUser (UserProfileView.post st caller form successUrl).1 other
      = findUser st other
    ∧ findUser (UserProfileView.post st caller form successUrl).1 caller
      = (findUser st caller).map (applyProfileForm form) := by
  constructor
  · unfold findUser UserProfileView.post
    exact find?_map_profile_other st.users caller other form h
  · unfold findUser UserProfileView.post
    exact find?_map_profile_self st.users caller form

/-- Concrete check of `profile_updates_only_self`: user 1 updates the profile
in `wStore`; user 2's row is untouched and user 1's row carries the new
values. -/
theorem profile_updates_only_self_witness :
    findUser (UserProfileView.post wStore 1
        { username := "al", email := "al@example.org" } none).1 2
      = findUser wStore 2
    ∧ findUser (UserProfileView.post wStore 1
        { username := "al", email := "al@example.org" } none).1 1
      = some { id := 1, username := "al", email := "al@example.org" } := by
  have h := profile_updates_only_self wStore 1 2
    { username := "al", email := "al@example.org" } none (by decide)
  exact ⟨h.1, by rw [h.2]; rfl⟩

/-- Claim C9: the Account list is unrestricted.  For every store and every
caller — anonymous included — the view renders all Account rows, and any two
callers receive identical results (no gate consults the caller). -/
theorem accountList_unrestricted (st : Store) (c1 c2 : Option Nat) :
    AccountList.get st c1 = Response.renderedAccounts st.accounts
    ∧ AccountList.get st c1 = AccountList.get st c2 := by
  exact ⟨rfl, rfl⟩

/-- Claim C10: for an authenticated caller, the login GET redirect target is
exactly the `next` query parameter when supplied — any string, verbatim, with
no validation — and `settings.LOGIN_REDIRECT_URL` otherwise. -/
theorem login_redirect_target_exact
    (url nxt : String) (s : RequestState) (h : s.session.isSome = true) :
    (LoginView.get url (some nxt) s).2 = Response.redirect nxt
    ∧ (LoginView.get url none s).2 = Response.redirect url := by
  unfold LoginView.get
  rw [h]
  exact ⟨rfl, rfl⟩

/-- Concrete check of `login_redirect_target_exact` with an external,
unvalidated `next` value. -/
theorem login_redirect_target_exact_witness :
    (LoginView.get "/default" (some "http://evil.example/path")
        { session := some 7, messages := [] }).2
      = Response.redirect "http://evil.example/path"
    ∧ (LoginView.get "/default" none
        { session := some 7, messages := [] }).2
      = Response.redirect "/default" := by
  exact login_redirect_target_exact "/default" "http://evil.example/path"
    { session := some 7, messages := [] } rfl

end Accounts
